import Mathlib

set_option maxHeartbeats 1000000

/-!
Shallow embedding of the Telegram webhook relay (src/api/telegram/webhook.js).
The source file holds two near-identical variants of the handler; they are
embedded as namespaces V1 (first variant) and V2 (second variant).
Platform primitives (fetch, JSON.parse, request.json, console.error) are
modelled explicitly: network outcomes and the runtime JSON parser live in a
`World` record, outbound calls and console logs are collected in lists.
-/

/-- JSON values: the data model for webhook payloads, API request bodies and
API responses. JS numbers are modelled as integers (sufficient for the
behaviour the handler inspects). -/
inductive Json where
  | null : Json
  | bool : Bool → Json
  | num : Int → Json
  | str : String → Json
  | arr : List Json → Json
  | obj : List (String × Json) → Json

/-- Property lookup on a JS object literal (first binding wins). -/
def lookupField : List (String × Json) → String → Option Json
  | [], _ => none
  | (k', v) :: rest, k => if k' = k then some v else lookupField rest k

/-- JS property access `j.k`: defined only on objects, `undefined` (none)
on every other value. -/
def Json.getField : Json → String → Option Json
  | .obj fields, k => lookupField fields k
  | _, _ => none

/-- JS indexed access `j[i]`: array element, object property named by the
index, or single character of a string; `undefined` otherwise. -/
def Json.getIdx : Json → Nat → Option Json
  | .arr es, i => es.get? i
  | .obj fields, i => lookupField fields (toString i)
  | .str s, i => (s.toList.get? i).map (fun c => Json.str c.toString)
  | _, _ => none

/-- Optional chaining `o?.k` on a possibly-undefined value. -/
def ogetF (o : Option Json) (k : String) : Option Json :=
  o.bind (fun j => j.getField k)

/-- Optional chaining `o?.[i]` on a possibly-undefined value. -/
def ogetI (o : Option Json) (i : Nat) : Option Json :=
  o.bind (fun j => j.getIdx i)

/-- JS truthiness of a defined value. -/
def truthy : Json → Bool
  | .null => false
  | .bool b => b
  | .num n => n != 0
  | .str s => s != ""
  | .arr _ => true
  | .obj _ => true

/-- JS truthiness of a possibly-undefined value (`undefined` is falsy). -/
def jsTruthy : Option Json → Bool
  | none => false
  | some j => truthy j

/-- JS `String(x)` coercion, fuelled to make the recursion structural. -/
def jsToStringFuel : Nat → Json → String
  | _, .str s => s
  | _, .num n => toString n
  | _, .bool true => "true"
  | _, .bool false => "false"
  | _, .null => "null"
  | _, .obj _ => "[object Object]"
  | 0, .arr _ => ""
  | Nat.succ f, .arr es =>
      String.intercalate "," (es.map (fun e => match e with
        | .null => ""
        | j => jsToStringFuel f j))

/-- JS `String(x)` coercion (as applied by `JSON.parse` to a non-string
argument). The fuel bounds the nesting depth of array coercion, mirroring
the JS engine's finite call stack; values nested deeper than 1000 arrays
are beyond any behaviour the claims touch. -/
def jsToString (j : Json) : String := jsToStringFuel 1000 j

/-- JS whitespace as recognised by `String.prototype.trim`: the WhiteSpace
production (TAB, VT, FF, SP, NBSP, ZWNBSP and every Unicode
space-separator: U+1680, U+2000-200A, U+202F, U+205F, U+3000) plus the
LineTerminator production (LF, CR, LS U+2028, PS U+2029). -/
def isJsSpace (c : Char) : Bool :=
  c == ' ' || c == '\t' || c == '\n' || c == '\r' ||
  c == Char.ofNat 11 || c == Char.ofNat 12 || c == Char.ofNat 160 ||
  c == Char.ofNat 0xfeff || c == Char.ofNat 0x1680 ||
  (Char.ofNat 0x2000 ≤ c && c ≤ Char.ofNat 0x200a) ||
  c == Char.ofNat 0x202f || c == Char.ofNat 0x205f ||
  c == Char.ofNat 0x3000 || c == Char.ofNat 0x2028 || c == Char.ofNat 0x2029

/-- JS `s.trim()`: strip whitespace from both ends. -/
def jsTrim (s : String) : String :=
  String.mk (((s.toList.dropWhile isJsSpace).reverse.dropWhile
    isJsSpace).reverse)

/-- Does `pat` match at the head of `s`? -/
def matchesAt : List Char → List Char → Bool
  | [], _ => true
  | _ :: _, [] => false
  | p :: ps, c :: cs => p == c && matchesAt ps cs

/-- The dollar character `$`, which starts GetSubstitution escapes. -/
def dollarC : Char := Char.ofNat 36

/-- The ampersand character `&` (GetSubstitution: the matched substring). -/
def ampC : Char := Char.ofNat 38

/-- The backquote character (GetSubstitution: the text before the match). -/
def backtC : Char := Char.ofNat 96

/-- The single-quote character (GetSubstitution: the text after the
match). -/
def squoteC : Char := Char.ofNat 39

/-- ECMAScript GetSubstitution applied to the replacement template:
`$$` yields `$`, `$&` the matched substring, a dollar-backquote escape the
part of the original string before the match, a dollar-quote escape the
part after it; any other dollar sequence (including a trailing `$`) is
literal. With a string search value there are no capture groups, so `$n`
and dollar-brace escapes fall through literally as well. -/
def getSubstitution (matched before after : List Char) :
    List Char → List Char
  | [] => []
  | [c] => [c]
  | c :: d :: rest =>
      if c = dollarC then
        if d = dollarC then
          dollarC :: getSubstitution matched before after rest
        else if d = ampC then
          matched ++ getSubstitution matched before after rest
        else if d = backtC then
          before ++ getSubstitution matched before after rest
        else if d = squoteC then
          after ++ getSubstitution matched before after rest
        else c :: getSubstitution matched before after (d :: rest)
      else c :: getSubstitution matched before after (d :: rest)

/-- Fuelled worker for `String.prototype.replaceAll`: scan left to right;
at each non-overlapping occurrence emit the GetSubstitution expansion of
the replacement (positions refer to the original string: `pre` is the
original text already consumed, the drop is the original text after the
match), continue after the match without rescanning the replacement. -/
def replGo (pat rep : List Char) : Nat → List Char → List Char → List Char
  | _, _, [] => []
  | 0, _, s => s
  | Nat.succ f, pre, c :: cs =>
      if pat ≠ [] && matchesAt pat (c :: cs) then
        getSubstitution pat pre (List.drop (pat.length - 1) cs) rep ++
          replGo pat rep f (pre ++ pat) (List.drop (pat.length - 1) cs)
      else
        c :: replGo pat rep f (pre ++ [c]) cs

/-- List-level `replaceAll` (fuel = input length, always sufficient;
nothing consumed yet). -/
def replaceAllL (pat rep s : List Char) : List Char :=
  replGo pat rep s.length [] s

/-- JS `s.replaceAll(pat, rep)` (line 27 / line 140 of the source). -/
def replaceAll (s pat rep : String) : String :=
  String.mk (replaceAllL pat.toList rep.toList s.toList)

/-- Does `pat` occur as a substring of `s` (list level)? -/
def containsPat (pat : List Char) : List Char → Bool
  | [] => matchesAt pat []
  | c :: cs => matchesAt pat (c :: cs) || containsPat pat (cs)

/-- Does `pat` occur as a substring of `s` (string level)? -/
def strContains (s pat : String) : Bool := containsPat pat.toList s.toList

/-- The literal placeholder `{{BOOKING_LINK}}` from the system template. -/
def bookingPlaceholder : String := "\x7b\x7bBOOKING_LINK\x7d\x7d"

/-- The environment (process.env), one optional string per variable read by
the source. -/
structure Env where
  TELEGRAM_BOT_TOKEN : Option String
  GEMINI_API_KEY : Option String
  JIM_API_KEY : Option String
  AI_SYSTEM_PROMPT : Option String
  BOOKING_LINK : Option String
  GEMINI_MODEL : Option String
  TELEGRAM_WEBHOOK_SECRET : Option String

/-- JS truthiness of an environment value: absent and empty are both falsy. -/
def envTruthy : Option String → Option String
  | none => none
  | some s => if s = "" then none else some s

/-- `mustEnv(name)`: return the value if truthy, otherwise throw with the
variant-specific message head. -/
def mustEnvMsg (msgHead : String) (v : Option String) (name : String) :
    Except String String :=
  match envTruthy v with
  | some s => Except.ok s
  | none => Except.error (msgHead ++ name)

/-- `process.env.X || defaultValue`. -/
def orDefault (v : Option String) (d : String) : String :=
  match envTruthy v with
  | some s => s
  | none => d

/-- The inbound HTTP request: method, optional
`x-telegram-bot-api-secret-token` header, and the result of `request.json()`
(`none` means body parsing threw). -/
structure Request where
  method : String
  secretHeader : Option String
  jsonBody : Option Json

/-- Outcome of one `fetch`: either the promise rejects / a body read throws
(`throws`), or a response arrives with a status, a text body (as read by
`res.text()`) and an optional JSON body (`none` means `res.json()` throws). -/
inductive FetchOutcome where
  | throws : String → FetchOutcome
  | response : Nat → String → Option Json → FetchOutcome

/-- `res.ok`: status in the 200-299 range. -/
def statusOk (s : Nat) : Bool := (200 ≤ s) && (s ≤ 299)

/-- The external world of one invocation: the Gemini fetch outcome, the
Telegram fetch outcome, and the runtime `JSON.parse` (errors carry the
parser's own exception message). -/
structure World where
  geminiOutcome : FetchOutcome
  telegramOutcome : FetchOutcome
  jsonParse : String → Except String Json

/-- One outbound Gemini generateContent call: key and model (which address
the URL), the resolved system prompt, and the user turn. -/
structure GeminiCall where
  apiKey : String
  model : String
  prompt : String
  userText : Json

/-- One outbound Telegram sendMessage call. -/
structure TelegramCall where
  botToken : String
  chat_id : Json
  text : String
  disable_web_page_preview : Bool

/-- An outbound network call. -/
inductive Call where
  | gemini : GeminiCall → Call
  | telegram : TelegramCall → Call

/-- An HTTP response returned by the handler. -/
structure Response where
  status : Nat
  body : String
deriving DecidableEq

/-- `JSON.stringify({ ok: true })`. -/
def okBody : String := "\x7b\"ok\":true\x7d"

/-- `JSON.stringify({ ok: true, ignored: true })`. -/
def okIgnoredBody : String := "\x7b\"ok\":true,\"ignored\":true\x7d"

/-- Result of one full handler invocation: the HTTP response, the outbound
calls performed (in order), and the console.error log lines. -/
structure HandlerResult where
  response : Response
  calls : List Call
  logs : List String

/-- Result of the handler's try-block body: a normal return or a thrown
error, plus the calls and logs performed so far. -/
structure TryResult where
  result : Except String Response
  calls : List Call
  logs : List String

/-- Result of `callGemini`: the parsed JSON (or a thrown error), plus calls
and logs. -/
structure GeminiResult where
  result : Except String Json
  calls : List Call
  logs : List String

/-- Result of `telegramSendMessage`. -/
structure SendResult where
  result : Except String Unit
  calls : List Call

/-- `update?.message?.chat?.id` by optional chaining. -/
def chatIdOf (update : Json) : Option Json :=
  ogetF (ogetF (ogetF (some update) "message") "chat") "id"

/-- `update?.message?.text` by optional chaining. -/
def textOf (update : Json) : Option Json :=
  ogetF (ogetF (some update) "message") "text"

/-- The successful value of a fallible computation, if any. -/
def okPart {α : Type} : Except String α → Option α
  | .ok a => some a
  | .error _ => none

/-- Extraction `data?.candidates?.[0]?.content?.parts?.[0]?.text`. -/
def geminiText (data : Json) : Option Json :=
  ogetF (ogetI (ogetF (ogetF (ogetI (ogetF (some data)
    "candidates") 0) "content") "parts") 0) "text"

/-- The shared body of both variants' `callGemini` after the prompt is
resolved: issue the fetch, check `res.ok`, read the JSON body, extract the
candidate text, require it truthy, and `JSON.parse` it. The variants differ
in their error messages and in whether the parse error is caught
(`catchParse = true`: log the raw text and throw the distinct
"malformed JSON" error; `false`: propagate the parser's own exception). -/
def geminiRequest (w : World) (apiKey model prompt : String) (userText : Json)
    (failMsg noTextMsg : String) (catchParse : Bool) : GeminiResult :=
  let call := Call.gemini ⟨apiKey, model, prompt, userText⟩
  match w.geminiOutcome with
  | .throws m => ⟨.error m, [call], []⟩
  | .response status bodyText bodyJson =>
      if statusOk status then
        match bodyJson with
        | none => ⟨.error "res.json failed", [call], []⟩
        | some data =>
            let text := geminiText data
            if jsTruthy text then
              let raw := jsToString (text.getD .null)
              match w.jsonParse raw with
              | .ok j => ⟨.ok j, [call], []⟩
              | .error pe =>
                  if catchParse then
                    ⟨.error "Gemini returned malformed JSON.", [call],
                      ["Invalid JSON from Gemini: " ++ raw]⟩
                  else
                    ⟨.error pe, [call], []⟩
            else ⟨.error noTextMsg, [call], []⟩
      else ⟨.error (failMsg ++ toString status ++ " " ++ bodyText), [call], []⟩

/-- `telegramSendMessage(botToken, chatId, text)` (identical in both
variants): POST sendMessage with link-preview suppression; throw on a
non-success status. -/
def telegramSendMessage (w : World) (botToken : String) (chatId : Json)
    (text : String) : SendResult :=
  let call := Call.telegram ⟨botToken, chatId, text, true⟩
  match w.telegramOutcome with
  | .throws m => ⟨.error m, [call]⟩
  | .response status bodyText _ =>
      if statusOk status then ⟨.ok (), [call]⟩
      else ⟨.error ("Telegram sendMessage failed: " ++ toString status ++ " "
              ++ bodyText), [call]⟩

/-- The reply-text selection shared by both handler variants:
`typeof ai?.reply_text === "string" && ai.reply_text.trim() ? trimmed :
fallback`. -/
def replyTextOf (ai : Json) (fallback : String) : String :=
  match ai.getField "reply_text" with
  | some (.str s) => if jsTrim s ≠ "" then jsTrim s else fallback
  | _ => fallback

/-- The optional shared-secret gate: configured and header absent or
different means reject. -/
def secretRejected (env : Env) (req : Request) : Bool :=
  match envTruthy env.TELEGRAM_WEBHOOK_SECRET with
  | some expectedSecret => req.secretHeader ≠ some expectedSecret
  | none => false

/-- The top-level catch: a thrown error is logged (with the
variant-specific head) and masked behind a 200 `{ok:true}` response. -/
def catchMask (logHead : String) (t : TryResult) : HandlerResult :=
  match t.result with
  | .ok resp => ⟨resp, t.calls, t.logs⟩
  | .error e => ⟨⟨200, okBody⟩, t.calls, t.logs ++ [logHead ++ e]⟩

namespace V1

/-- Variant 1 `mustEnv` (line 4): message `Missing env var: NAME`. -/
def mustEnv (v : Option String) (name : String) : Except String String :=
  mustEnvMsg "Missing env var: " v name

/-- Variant 1 fallback reply text (line 88). -/
def fallbackText : String :=
  "Got you — what’s your website or IG link so I can take a look?"

/-- Variant 1 `callGemini` (lines 24-49): resolve the prompt by placeholder
substitution, then issue the request; a JSON.parse failure propagates the
raw parser exception. -/
def callGemini (w : World) (apiKey model systemPrompt : String)
    (userText : Json) (bookingLink : String) : GeminiResult :=
  let prompt := replaceAll systemPrompt bookingPlaceholder bookingLink
  geminiRequest w apiKey model prompt userText
    "Gemini failed: " "Gemini returned no text." false

/-- Variant 1 processing after the gates (lines 69-93), parameterised by the
fallback constant: parse the body, extract `chat.id` and `text` by optional
chaining, short-circuit to the ignored response, otherwise call Gemini and
send the reply. -/
def processUpdate (w : World) (fb : String)
    (BOT_TOKEN GEMINI_KEY SYSTEM_PROMPT BOOKING_LINK GEMINI_MODEL : String)
    (body : Option Json) : TryResult :=
  match body with
  | none => ⟨.error "request.json: invalid body", [], []⟩
  | some update =>
      let chatId := chatIdOf update
      let userText := textOf update
      if !jsTruthy chatId || !jsTruthy userText then
        ⟨.ok ⟨200, okIgnoredBody⟩, [], []⟩
      else
        let g := callGemini w GEMINI_KEY GEMINI_MODEL SYSTEM_PROMPT
          (userText.getD .null) BOOKING_LINK
        match g.result with
        | .error e => ⟨.error e, g.calls, g.logs⟩
        | .ok ai =>
            let replyText := replyTextOf ai fb
            let t := telegramSendMessage w BOT_TOKEN (chatId.getD .null)
              replyText
            match t.result with
            | .error e => ⟨.error e, g.calls ++ t.calls, g.logs⟩
            | .ok _ => ⟨.ok ⟨200, okBody⟩, g.calls ++ t.calls, g.logs⟩

/-- Variant 1 try-block body (lines 52-93), parameterised by the fallback
constant: method gate, the three mandatory env reads, defaults, secret
gate, then processing. -/
def tryBody (fb : String) (env : Env) (req : Request) (w : World) :
    TryResult :=
  if req.method ≠ "POST" then ⟨.ok ⟨405, "Method Not Allowed"⟩, [], []⟩
  else
    match mustEnv env.TELEGRAM_BOT_TOKEN "TELEGRAM_BOT_TOKEN" with
    | .error e => ⟨.error e, [], []⟩
    | .ok BOT_TOKEN =>
    match mustEnv env.GEMINI_API_KEY "GEMINI_API_KEY" with
    | .error e => ⟨.error e, [], []⟩
    | .ok GEMINI_KEY =>
    match mustEnv env.AI_SYSTEM_PROMPT "AI_SYSTEM_PROMPT" with
    | .error e => ⟨.error e, [], []⟩
    | .ok SYSTEM_PROMPT =>
      let BOOKING_LINK := orDefault env.BOOKING_LINK
        "https://calendly.com/your-link"
      let GEMINI_MODEL := orDefault env.GEMINI_MODEL "gemini-2.5-flash"
      if secretRejected env req then ⟨.ok ⟨401, "Unauthorized"⟩, [], []⟩
      else processUpdate w fb BOT_TOKEN GEMINI_KEY SYSTEM_PROMPT BOOKING_LINK
        GEMINI_MODEL req.jsonBody

/-- Variant 1 handler with the fallback constant as a parameter. -/
def handlerWith (fb : String) (env : Env) (req : Request) (w : World) :
    HandlerResult :=
  catchMask "" (tryBody fb env req w)

/-- Variant 1 handler (lines 51-99). -/
def handler (env : Env) (req : Request) (w : World) : HandlerResult :=
  handlerWith fallbackText env req w

end V1

namespace V2

/-- Variant 2 `mustEnv` (line 106): message
`Missing required environment variable: NAME`. -/
def mustEnv (v : Option String) (name : String) : Except String String :=
  mustEnvMsg "Missing required environment variable: " v name

/-- Variant 2 fallback reply text (line 224). -/
def fallbackText : String :=
  "Quick question — what’s your website or IG link so I can take a look?"

/-- Variant 2 `callGemini` (lines 135-182): reads `JIM_API_KEY`,
`AI_SYSTEM_PROMPT` and `GEMINI_MODEL` itself, resolves the prompt, issues
the request; a JSON.parse failure is caught, the raw text logged, and the
distinct "malformed JSON" error thrown. -/
def callGemini (w : World) (env : Env) (userText : Json)
    (bookingLink : String) : GeminiResult :=
  match mustEnv env.JIM_API_KEY "JIM_API_KEY" with
  | .error e => ⟨.error e, [], []⟩
  | .ok JIM_API_KEY =>
  match mustEnv env.AI_SYSTEM_PROMPT "AI_SYSTEM_PROMPT" with
  | .error e => ⟨.error e, [], []⟩
  | .ok SYSTEM_PROMPT =>
    let GEMINI_MODEL := orDefault env.GEMINI_MODEL "gemini-2.5-flash"
    let prompt := replaceAll SYSTEM_PROMPT bookingPlaceholder bookingLink
    geminiRequest w JIM_API_KEY GEMINI_MODEL prompt userText
      "Gemini API failed: " "Gemini returned empty response." true

/-- Variant 2 processing after the gates (lines 208-230), parameterised by
the fallback constant. -/
def processUpdate (w : World) (env : Env) (fb : String)
    (BOT_TOKEN BOOKING_LINK : String) (body : Option Json) : TryResult :=
  match body with
  | none => ⟨.error "request.json: invalid body", [], []⟩
  | some update =>
      let chatId := chatIdOf update
      let userText := textOf update
      if !jsTruthy chatId || !jsTruthy userText then
        ⟨.ok ⟨200, okIgnoredBody⟩, [], []⟩
      else
        let g := callGemini w env (userText.getD .null) BOOKING_LINK
        match g.result with
        | .error e => ⟨.error e, g.calls, g.logs⟩
        | .ok ai =>
            let replyText := replyTextOf ai fb
            let t := telegramSendMessage w BOT_TOKEN (chatId.getD .null)
              replyText
            match t.result with
            | .error e => ⟨.error e, g.calls ++ t.calls, g.logs⟩
            | .ok _ => ⟨.ok ⟨200, okBody⟩, g.calls ++ t.calls, g.logs⟩

/-- Variant 2 try-block body (lines 188-230), parameterised by the fallback
constant: method gate, bot-token read, booking-link default, secret gate,
then processing. -/
def tryBody (fb : String) (env : Env) (req : Request) (w : World) :
    TryResult :=
  if req.method ≠ "POST" then ⟨.ok ⟨405, "Method Not Allowed"⟩, [], []⟩
  else
    match mustEnv env.TELEGRAM_BOT_TOKEN "TELEGRAM_BOT_TOKEN" with
    | .error e => ⟨.error e, [], []⟩
    | .ok BOT_TOKEN =>
      let BOOKING_LINK := orDefault env.BOOKING_LINK
        "https://calendly.com/your-link"
      if secretRejected env req then ⟨.ok ⟨401, "Unauthorized"⟩, [], []⟩
      else processUpdate w env fb BOT_TOKEN BOOKING_LINK req.jsonBody

/-- Variant 2 handler with the fallback constant as a parameter. -/
def handlerWith (fb : String) (env : Env) (req : Request) (w : World) :
    HandlerResult :=
  catchMask "Webhook Error: " (tryBody fb env req w)

/-- Variant 2 handler (lines 187-239). -/
def handler (env : Env) (req : Request) (w : World) : HandlerResult :=
  handlerWith fallbackText env req w

end V2

/-- The texts of the Telegram send calls in an outbound call list. -/
def telegramTexts (calls : List Call) : List String :=
  calls.filterMap (fun c => match c with
    | .telegram t => some t.text
    | .gemini _ => none)

/-- Does the world's Telegram fetch fail (reject or non-success status)? -/
def telegramFails (w : World) : Bool :=
  match w.telegramOutcome with
  | .throws _ => true
  | .response status _ _ => !statusOk status

/-- The opening-brace character, the first character of the placeholder. -/
def obrace : Char := Char.ofNat 123

/-- Interleave a separator between a list of segments (list level). -/
def interleaveL (sep : List Char) : List (List Char) → List Char
  | [] => []
  | [s] => s
  | s :: rest => s ++ sep ++ interleaveL sep rest

/-- Interleave a separator between a list of segments (string level):
`interleaveStr sep [a, b, c] = a ++ sep ++ b ++ sep ++ c`. -/
def interleaveStr (sep : String) (segs : List String) : String :=
  String.mk (interleaveL sep.toList (segs.map String.toList))

/-! Concrete instances used by witnesses and counterexamples. -/

/-- A Gemini response body whose first candidate's first part carries the
given text. -/
def geminiData (s : String) : Json :=
  Json.obj [("candidates", Json.arr [Json.obj [("content", Json.obj
    [("parts", Json.arr [Json.obj [("text", Json.str s)]])])]])]

/-- A well-formed Telegram update: chat id 42, text "hi". -/
def updateOK : Json :=
  Json.obj [("message", Json.obj
    [("chat", Json.obj [("id", Json.num 42)]), ("text", Json.str "hi")])]

/-- A POST request with no secret header carrying `updateOK`. -/
def reqOK : Request := ⟨"POST", none, some updateOK⟩

/-- An environment with all mandatory values present (both variants' key
names set to the same value) and no inbound secret. -/
def envFull : Env :=
  ⟨some "bot-token", some "gem-key", some "gem-key",
   some ("Say hi. Book: " ++ bookingPlaceholder),
   some "https://cal.example", none, none⟩

/-- A world where Gemini answers 200 with a parseable reply and Telegram
answers 200. -/
def wHello : World :=
  ⟨FetchOutcome.response 200 "" (some (geminiData "raw")),
   FetchOutcome.response 200 "" none,
   fun _ => Except.ok (Json.obj [("reply_text", Json.str "  Hello there  ")])⟩

/-- A world where Gemini answers 200 with a reply whose `reply_text` is a
single ideographic space U+3000 (whitespace-only under JS trim). -/
def wIdeo : World :=
  ⟨FetchOutcome.response 200 "" (some (geminiData "raw")),
   FetchOutcome.response 200 "" none,
   fun _ => Except.ok (Json.obj [("reply_text", Json.str "\u3000")])⟩

/-- A world where Gemini answers 200 but its text body is not parseable as
JSON: the runtime parser throws a SyntaxError. -/
def wParseFail : World :=
  ⟨FetchOutcome.response 200 "" (some (geminiData "oops")),
   FetchOutcome.response 200 "" none,
   fun _ => Except.error "SyntaxError: Unexpected token o"⟩

/-- A world where the Gemini call answers a 500 status. -/
def wGeminiDown : World :=
  ⟨FetchOutcome.response 500 "Internal Error" none,
   FetchOutcome.response 200 "" none,
   fun _ => Except.error "unused"⟩

/-- A world where Gemini succeeds but Telegram answers a 403 status. -/
def wTelegramDown : World :=
  ⟨FetchOutcome.response 200 "" (some (geminiData "raw")),
   FetchOutcome.response 403 "Forbidden" none,
   fun _ => Except.ok (Json.obj [("reply_text", Json.str "Hi")])⟩

/-- An environment missing the bot token (other mandatory values set). -/
def envNoBot : Env :=
  ⟨none, some "gem-key", some "gem-key", some "prompt", none, none, none⟩

/-- An environment missing the bot token but with an inbound secret
configured. -/
def envNoBotSecret : Env :=
  ⟨none, some "gem-key", some "gem-key", some "prompt", none, none,
   some "tok"⟩

/-- A full environment with an inbound secret configured. -/
def envFullSecret : Env :=
  ⟨some "bot-token", some "gem-key", some "gem-key", some "prompt", none,
   none, some "tok"⟩

/-- A POST request carrying a wrong secret header. -/
def reqBadSecret : Request := ⟨"POST", some "WRONG", some updateOK⟩

/-- A GET request carrying a wrong secret header. -/
def reqGet : Request := ⟨"GET", some "WRONG", some updateOK⟩

/-- An environment missing the system instruction template. -/
def envNoPrompt : Env :=
  ⟨some "bot-token", some "gem-key", some "gem-key", none, none, none, none⟩

/-- An environment where variant 1's key name is set but variant 2's
(`JIM_API_KEY`) is absent. -/
def envNoJim : Env :=
  ⟨some "bot-token", some "gem-key", none, some "prompt", none, none, none⟩

/-- A POST request whose payload is an empty object (no usable text). -/
def reqEmptyObj : Request := ⟨"POST", none, some (Json.obj [])⟩

/-- An update with a chat id but no text field. -/
def updateNoText : Json :=
  Json.obj [("message", Json.obj [("chat", Json.obj [("id", Json.num 7)])])]

/-- An update whose chat id is present but `0` (falsy). -/
def updateFalsyChat : Json :=
  Json.obj [("message", Json.obj
    [("chat", Json.obj [("id", Json.num 0)]), ("text", Json.str "hi")])]

/-- An update whose text is present but the empty string (falsy). -/
def updateEmptyText : Json :=
  Json.obj [("message", Json.obj
    [("chat", Json.obj [("id", Json.num 42)]), ("text", Json.str "")])]

/-! ## Helper lemmas -/

theorem mustEnvMsg_ok {v : Option String} {s : String} (msgHead name : String)
    (h : envTruthy v = some s) : mustEnvMsg msgHead v name = .ok s := by
  simp [mustEnvMsg, h]

theorem mustEnvMsg_err {v : Option String} (msgHead name : String)
    (h : envTruthy v = none) :
    mustEnvMsg msgHead v name = .error (msgHead ++ name) := by
  simp [mustEnvMsg, h]

theorem v1_gates (fb : String) (env : Env) (req : Request) (w : World)
    {bt gk sp : String}
    (hm : req.method = "POST")
    (hbt : envTruthy env.TELEGRAM_BOT_TOKEN = some bt)
    (hgk : envTruthy env.GEMINI_API_KEY = some gk)
    (hsp : envTruthy env.AI_SYSTEM_PROMPT = some sp)
    (hsec : secretRejected env req = false) :
    V1.tryBody fb env req w = V1.processUpdate w fb bt gk sp
      (orDefault env.BOOKING_LINK "https://calendly.com/your-link")
      (orDefault env.GEMINI_MODEL "gemini-2.5-flash") req.jsonBody := by
  simp [V1.tryBody, V1.mustEnv, mustEnvMsg, hbt, hgk, hsp, hm, hsec]

theorem v2_gates (fb : String) (env : Env) (req : Request) (w : World)
    {bt : String}
    (hm : req.method = "POST")
    (hbt : envTruthy env.TELEGRAM_BOT_TOKEN = some bt)
    (hsec : secretRejected env req = false) :
    V2.tryBody fb env req w = V2.processUpdate w env fb bt
      (orDefault env.BOOKING_LINK "https://calendly.com/your-link")
      req.jsonBody := by
  simp [V2.tryBody, V2.mustEnv, mustEnvMsg, hbt, hm, hsec]

theorem geminiRequest_calls (w : World) (a m pr : String) (u : Json)
    (f n : String) (b : Bool) :
    (geminiRequest w a m pr u f n b).calls = [Call.gemini ⟨a, m, pr, u⟩] := by
  unfold geminiRequest
  cases w.geminiOutcome with
  | throws msg => rfl
  | response st bt bj =>
    cases hst : statusOk st with
    | false => simp [hst]
    | true =>
      cases bj with
      | none => simp [hst]
      | some data =>
        cases ht : jsTruthy (geminiText data) with
        | false => simp [hst, ht]
        | true =>
          cases hp : w.jsonParse (jsToString ((geminiText data).getD .null)) with
          | ok j => simp [hst, ht, hp]
          | error pe => cases b <;> simp [hst, ht, hp]

theorem telegramSend_calls (w : World) (bot : String) (chat : Json)
    (text : String) :
    (telegramSendMessage w bot chat text).calls =
      [Call.telegram ⟨bot, chat, text, true⟩] := by
  unfold telegramSendMessage
  cases w.telegramOutcome with
  | throws msg => rfl
  | response st bt bj => cases hst : statusOk st <;> simp [hst]

theorem telegramSend_fail (w : World) (bot : String) (chat : Json)
    (text : String) (h : telegramFails w = true) :
    okPart (telegramSendMessage w bot chat text).result = none := by
  unfold telegramFails at h
  unfold telegramSendMessage
  cases hw : w.telegramOutcome with
  | throws msg => rfl
  | response st bt bj =>
    rw [hw] at h
    simp at h
    simp [h, okPart]

/-! ## Claims -/

/-- C3: for every request whose method is not POST, both handler variants
respond 405 Method Not Allowed, perform no outbound call, and do no payload
processing (no logs, calls or body access). -/
theorem C3_method_gate (env : Env) (req : Request) (w : World)
    (h : req.method ≠ "POST") :
    V1.handler env req w = ⟨⟨405, "Method Not Allowed"⟩, [], []⟩ ∧
    V2.handler env req w = ⟨⟨405, "Method Not Allowed"⟩, [], []⟩ := by
  refine ⟨?_, ?_⟩ <;>
    simp [V1.handler, V1.handlerWith, V1.tryBody, V2.handler, V2.handlerWith,
      V2.tryBody, catchMask, h]

/-- Witness for C3 at a concrete GET request. -/
theorem C3_method_gate_witness :
    ("GET" : String) ≠ "POST" ∧
    (V1.handler envFull reqGet wHello = ⟨⟨405, "Method Not Allowed"⟩, [], []⟩ ∧
     V2.handler envFull reqGet wHello = ⟨⟨405, "Method Not Allowed"⟩, [], []⟩) :=
  ⟨by decide, C3_method_gate envFull reqGet wHello (by decide)⟩

/-- C2 counterexample: with `TELEGRAM_BOT_TOKEN` absent and a valid POST
request, both variants catch the configuration error inside the top-level
try/catch and return the masked success response 200 `{ok:true}` (logging
the error), contradicting "surfaces immediately as an unhandled fatal
condition ... not masked behind a success response". -/
theorem C2_counterexample :
    (V1.handler envNoBot reqOK wHello).response = ⟨200, okBody⟩ ∧
    (V1.handler envNoBot reqOK wHello).calls = [] ∧
    (V1.handler envNoBot reqOK wHello).logs =
      ["Missing env var: TELEGRAM_BOT_TOKEN"] ∧
    (V2.handler envNoBot reqOK wHello).response = ⟨200, okBody⟩ ∧
    (V2.handler envNoBot reqOK wHello).calls = [] ∧
    (V2.handler envNoBot reqOK wHello).logs =
      ["Webhook Error: Missing required environment variable: TELEGRAM_BOT_TOKEN"] :=
  ⟨rfl, rfl, rfl, rfl, rfl, rfl⟩

/-- C2 (amended): a missing mandatory environment value makes the handler
perform no outbound call and return the masked success response 200
`{ok:true}` (caught at top level, not an unhandled fatal). Variant 1 checks
all three values before payload parsing; variant 2 checks the bot token up
front and the completion credential / template only inside the completion
step, after payload processing. -/
theorem C2_amended (env : Env) (req : Request) (w : World)
    (hm : req.method = "POST") :
    ((envTruthy env.TELEGRAM_BOT_TOKEN = none ∨
      envTruthy env.GEMINI_API_KEY = none ∨
      envTruthy env.AI_SYSTEM_PROMPT = none) →
      (V1.handler env req w).response = ⟨200, okBody⟩ ∧
      (V1.handler env req w).calls = []) ∧
    (envTruthy env.TELEGRAM_BOT_TOKEN = none →
      (V2.handler env req w).response = ⟨200, okBody⟩ ∧
      (V2.handler env req w).calls = []) ∧
    (∀ bt update, envTruthy env.TELEGRAM_BOT_TOKEN = some bt →
      secretRejected env req = false → req.jsonBody = some update →
      jsTruthy (chatIdOf update) = true → jsTruthy (textOf update) = true →
      (envTruthy env.JIM_API_KEY = none ∨
       envTruthy env.AI_SYSTEM_PROMPT = none) →
      (V2.handler env req w).response = ⟨200, okBody⟩ ∧
      (V2.handler env req w).calls = []) := by
  refine ⟨?_, ?_, ?_⟩
  · intro h
    cases hbt : envTruthy env.TELEGRAM_BOT_TOKEN with
    | none =>
        simp [V1.handler, V1.handlerWith, V1.tryBody, V1.mustEnv, mustEnvMsg,
          hbt, hm, catchMask]
    | some bt =>
        cases hgk : envTruthy env.GEMINI_API_KEY with
        | none =>
            simp [V1.handler, V1.handlerWith, V1.tryBody, V1.mustEnv,
              mustEnvMsg, hbt, hgk, hm, catchMask]
        | some gk =>
            cases hsp : envTruthy env.AI_SYSTEM_PROMPT with
            | none =>
                simp [V1.handler, V1.handlerWith, V1.tryBody, V1.mustEnv,
                  mustEnvMsg, hbt, hgk, hsp, hm, catchMask]
            | some sp => rcases h with h | h | h <;> simp_all
  · intro hbt
    simp [V2.handler, V2.handlerWith, V2.tryBody, V2.mustEnv, mustEnvMsg,
      hbt, hm, catchMask]
  · intro bt update hbt hsec hbody hchat htext hmiss
    have hg := v2_gates V2.fallbackText env req w hm hbt hsec
    simp only [V2.handler, V2.handlerWith]
    rw [hg, hbody]
    rcases hmiss with hj | ha
    · simp [V2.processUpdate, hchat, htext, V2.callGemini, V2.mustEnv,
        mustEnvMsg, hj, catchMask]
    · cases hj : envTruthy env.JIM_API_KEY with
      | none =>
          simp [V2.processUpdate, hchat, htext, V2.callGemini, V2.mustEnv,
            mustEnvMsg, hj, catchMask]
      | some jim =>
          simp [V2.processUpdate, hchat, htext, V2.callGemini, V2.mustEnv,
            mustEnvMsg, hj, ha, catchMask]

/-- Witness for the amended C2 at a concrete environment missing the bot
token. -/
theorem C2_amended_witness :
    (V1.handler envNoBot reqOK wHello).response = ⟨200, okBody⟩ ∧
    (V1.handler envNoBot reqOK wHello).calls = [] :=
  (C2_amended envNoBot reqOK wHello rfl).1 (Or.inl rfl)

/-- C4 counterexample: the claim fails in two ways. With the bot token
absent, a POST request with a configured secret and a mismatched header is
answered 200 `{ok:true}` (variant 1 reads the mandatory environment values
before the secret gate and the thrown configuration error is masked), not
401. With a full environment, a GET request with a mismatched header is
answered 405, not 401 (the method gate precedes the secret gate). -/
theorem C4_counterexample :
    envTruthy envNoBotSecret.TELEGRAM_WEBHOOK_SECRET = some "tok" ∧
    reqBadSecret.secretHeader ≠ some "tok" ∧
    (V1.handler envNoBotSecret reqBadSecret wHello).response = ⟨200, okBody⟩ ∧
    envTruthy envFullSecret.TELEGRAM_WEBHOOK_SECRET = some "tok" ∧
    reqGet.secretHeader ≠ some "tok" ∧
    (V1.handler envFullSecret reqGet wHello).response =
      ⟨405, "Method Not Allowed"⟩ ∧
    (V2.handler envFullSecret reqGet wHello).response =
      ⟨405, "Method Not Allowed"⟩ :=
  ⟨rfl, by decide, rfl, rfl, by decide, rfl, rfl⟩

/-- C4 (amended): for every POST request, when the mandatory environment
values read before the secret gate are present, a configured inbound secret
with an absent or mismatched header yields 401 Unauthorized with no
outbound call, no log, and independently of the request body (the check
precedes body parsing). -/
theorem C4_amended (env : Env) (req : Request) (w : World)
    {bt gk sp secret : String}
    (hm : req.method = "POST")
    (hbt : envTruthy env.TELEGRAM_BOT_TOKEN = some bt)
    (hgk : envTruthy env.GEMINI_API_KEY = some gk)
    (hsp : envTruthy env.AI_SYSTEM_PROMPT = some sp)
    (hs : envTruthy env.TELEGRAM_WEBHOOK_SECRET = some secret)
    (hmis : req.secretHeader ≠ some secret) :
    (∀ b, V1.handler env ⟨req.method, req.secretHeader, b⟩ w =
      ⟨⟨401, "Unauthorized"⟩, [], []⟩) ∧
    (∀ b, V2.handler env ⟨req.method, req.secretHeader, b⟩ w =
      ⟨⟨401, "Unauthorized"⟩, [], []⟩) := by
  have hrej : ∀ m b, secretRejected env ⟨m, req.secretHeader, b⟩
      = true := by
    intro m b
    simp [secretRejected, hs, hmis]
  refine ⟨?_, ?_⟩ <;> intro b
  · simp [V1.handler, V1.handlerWith, V1.tryBody, V1.mustEnv, mustEnvMsg,
      hbt, hgk, hsp, hm, hrej, catchMask]
  · simp [V2.handler, V2.handlerWith, V2.tryBody, V2.mustEnv, mustEnvMsg,
      hbt, hm, hrej, catchMask]

/-- Witness for the amended C4 at a concrete environment with secret "tok"
and a request carrying header "WRONG". -/
theorem C4_amended_witness :
    V1.handler envFullSecret
      ⟨reqBadSecret.method, reqBadSecret.secretHeader, some updateOK⟩ wHello
      = ⟨⟨401, "Unauthorized"⟩, [], []⟩ ∧
    V2.handler envFullSecret
      ⟨reqBadSecret.method, reqBadSecret.secretHeader, some updateOK⟩ wHello
      = ⟨⟨401, "Unauthorized"⟩, [], []⟩ :=
  ⟨(C4_amended envFullSecret reqBadSecret wHello rfl rfl rfl rfl rfl
      (by decide)).1 (some updateOK),
   (C4_amended envFullSecret reqBadSecret wHello rfl rfl rfl rfl rfl
      (by decide)).2 (some updateOK)⟩

/-- C5: once the gates pass, a parsed payload whose chat id or message text
is absent under optional chaining is answered 200
`{ok:true, ignored:true}` with no outbound call by both variants. -/
theorem C5_ignored (env : Env) (req : Request) (w : World)
    {bt gk sp : String} (update : Json)
    (hm : req.method = "POST")
    (hbt : envTruthy env.TELEGRAM_BOT_TOKEN = some bt)
    (hgk : envTruthy env.GEMINI_API_KEY = some gk)
    (hsp : envTruthy env.AI_SYSTEM_PROMPT = some sp)
    (hsec : secretRejected env req = false)
    (hbody : req.jsonBody = some update)
    (habs : chatIdOf update = none ∨ textOf update = none) :
    V1.handler env req w = ⟨⟨200, okIgnoredBody⟩, [], []⟩ ∧
    V2.handler env req w = ⟨⟨200, okIgnoredBody⟩, [], []⟩ := by
  have h1 := v1_gates V1.fallbackText env req w hm hbt hgk hsp hsec
  have h2 := v2_gates V2.fallbackText env req w hm hbt hsec
  have hcond : (!jsTruthy (chatIdOf update) || !jsTruthy (textOf update))
      = true := by
    rcases habs with h | h <;> simp [h, jsTruthy]
  constructor
  · simp only [V1.handler, V1.handlerWith]
    rw [h1, hbody]
    simp [V1.processUpdate, hcond, catchMask]
  · simp only [V2.handler, V2.handlerWith]
    rw [h2, hbody]
    simp [V2.processUpdate, hcond, catchMask]

/-- Witness for C5 at a concrete payload with a chat id but no text field. -/
theorem C5_ignored_witness :
    V1.handler envFull ⟨"POST", none, some updateNoText⟩ wHello
      = ⟨⟨200, okIgnoredBody⟩, [], []⟩ ∧
    V2.handler envFull ⟨"POST", none, some updateNoText⟩ wHello
      = ⟨⟨200, okIgnoredBody⟩, [], []⟩ :=
  C5_ignored envFull ⟨"POST", none, some updateNoText⟩ wHello updateNoText
    rfl rfl rfl rfl rfl rfl (Or.inr rfl)

/-- C10: once the gates pass, a payload whose chat id is present but falsy
(the number 0 or the empty string) or whose text is present but the empty
string is treated exactly like an absent field: both variants answer 200
`{ok:true, ignored:true}` and perform no outbound call. -/
theorem C10_falsy_fields (env : Env) (req : Request) (w : World)
    {bt gk sp : String} (update : Json)
    (hm : req.method = "POST")
    (hbt : envTruthy env.TELEGRAM_BOT_TOKEN = some bt)
    (hgk : envTruthy env.GEMINI_API_KEY = some gk)
    (hsp : envTruthy env.AI_SYSTEM_PROMPT = some sp)
    (hsec : secretRejected env req = false)
    (hbody : req.jsonBody = some update)
    (hfalsy : chatIdOf update = some (Json.num 0) ∨
              chatIdOf update = some (Json.str "") ∨
              textOf update = some (Json.str "")) :
    V1.handler env req w = ⟨⟨200, okIgnoredBody⟩, [], []⟩ ∧
    V2.handler env req w = ⟨⟨200, okIgnoredBody⟩, [], []⟩ := by
  have h1 := v1_gates V1.fallbackText env req w hm hbt hgk hsp hsec
  have h2 := v2_gates V2.fallbackText env req w hm hbt hsec
  have hcond : (!jsTruthy (chatIdOf update) || !jsTruthy (textOf update))
      = true := by
    rcases hfalsy with h | h | h <;> simp [h, jsTruthy, truthy]
  constructor
  · simp only [V1.handler, V1.handlerWith]
    rw [h1, hbody]
    simp [V1.processUpdate, hcond, catchMask]
  · simp only [V2.handler, V2.handlerWith]
    rw [h2, hbody]
    simp [V2.processUpdate, hcond, catchMask]

/-- Witness for C10 at a payload with chat id 0 and at a payload with empty
text. -/
theorem C10_falsy_fields_witness :
    (V1.handler envFull ⟨"POST", none, some updateFalsyChat⟩ wHello
       = ⟨⟨200, okIgnoredBody⟩, [], []⟩ ∧
     V2.handler envFull ⟨"POST", none, some updateFalsyChat⟩ wHello
       = ⟨⟨200, okIgnoredBody⟩, [], []⟩) ∧
    (V1.handler envFull ⟨"POST", none, some updateEmptyText⟩ wHello
       = ⟨⟨200, okIgnoredBody⟩, [], []⟩ ∧
     V2.handler envFull ⟨"POST", none, some updateEmptyText⟩ wHello
       = ⟨⟨200, okIgnoredBody⟩, [], []⟩) :=
  ⟨C10_falsy_fields envFull ⟨"POST", none, some updateFalsyChat⟩ wHello
      updateFalsyChat rfl rfl rfl rfl rfl rfl (Or.inl rfl),
   C10_falsy_fields envFull ⟨"POST", none, some updateEmptyText⟩ wHello
      updateEmptyText rfl rfl rfl rfl rfl rfl (Or.inr (Or.inr rfl))⟩

theorem geminiRequest_ok (w : World) (a m pr : String) (u : Json)
    (f n : String) (b : Bool) {data : Json} {raw : String} {j : Json}
    {gstatus : Nat} {gbody : String}
    (hout : w.geminiOutcome = FetchOutcome.response gstatus gbody (some data))
    (hgok : statusOk gstatus = true)
    (hgt : geminiText data = some (Json.str raw))
    (hraw : raw ≠ "")
    (hparse : w.jsonParse raw = .ok j) :
    geminiRequest w a m pr u f n b =
      ⟨.ok j, [Call.gemini ⟨a, m, pr, u⟩], []⟩ := by
  unfold geminiRequest
  rw [hout]
  have htr : jsTruthy (geminiText data) = true := by
    simp [hgt, jsTruthy, truthy, hraw]
  have hgd : (geminiText data).getD .null = Json.str raw := by simp [hgt]
  simp only [hgok, if_true, htr, hgd]
  have hjs : jsToString (Json.str raw) = raw := rfl
  rw [hjs, hparse]

theorem geminiRequest_parse_err (w : World) (a m pr : String) (u : Json)
    (f n : String) {data : Json} {raw : String} {pe : String}
    {gstatus : Nat} {gbody : String}
    (hout : w.geminiOutcome = FetchOutcome.response gstatus gbody (some data))
    (hgok : statusOk gstatus = true)
    (hgt : geminiText data = some (Json.str raw))
    (hraw : raw ≠ "")
    (hparse : w.jsonParse raw = .error pe) :
    geminiRequest w a m pr u f n false =
      ⟨.error pe, [Call.gemini ⟨a, m, pr, u⟩], []⟩ ∧
    geminiRequest w a m pr u f n true =
      ⟨.error "Gemini returned malformed JSON.", [Call.gemini ⟨a, m, pr, u⟩],
        ["Invalid JSON from Gemini: " ++ raw]⟩ := by
  unfold geminiRequest
  rw [hout]
  have htr : jsTruthy (geminiText data) = true := by
    simp [hgt, jsTruthy, truthy, hraw]
  have hgd : (geminiText data).getD .null = Json.str raw := by simp [hgt]
  simp only [hgok, if_true, htr, hgd]
  have hjs : jsToString (Json.str raw) = raw := rfl
  rw [hjs, hparse]
  exact ⟨rfl, rfl⟩

/-- C8 counterexample: in the first variant's Completion Client, a success
response whose extracted text "oops" is not parseable as JSON makes
`callGemini` fail with the runtime parser's own exception (here
"SyntaxError: Unexpected token o"), not a distinct "malformed JSON" error,
and nothing is logged before failing — contradicting the claim for that
variant. -/
theorem C8_counterexample :
    (V1.callGemini wParseFail "gem-key" "gemini-2.5-flash" "prompt"
        (Json.str "hi") "link").result =
      .error "SyntaxError: Unexpected token o" ∧
    (V1.callGemini wParseFail "gem-key" "gemini-2.5-flash" "prompt"
        (Json.str "hi") "link").logs = [] :=
  ⟨rfl, rfl⟩

/-- C8 (amended): the second variant's Completion Client behaves as the
claim states: on a success response whose extracted (non-empty) text fails
JSON parsing, it logs the raw offending text and fails with the distinct
"Gemini returned malformed JSON." error rather than propagating the
parser's exception. The first variant instead propagates the raw parser
exception and logs nothing (see the counterexample). -/
theorem C8_amended (w : World) (env : Env) (userText : Json)
    (bookingLink : String) {jim sp : String} {data : Json}
    {raw pe : String} {gstatus : Nat} {gbody : String}
    (hjim : envTruthy env.JIM_API_KEY = some jim)
    (hsp : envTruthy env.AI_SYSTEM_PROMPT = some sp)
    (hout : w.geminiOutcome = FetchOutcome.response gstatus gbody (some data))
    (hgok : statusOk gstatus = true)
    (hgt : geminiText data = some (Json.str raw))
    (hraw : raw ≠ "")
    (hparse : w.jsonParse raw = .error pe) :
    (V2.callGemini w env userText bookingLink).result =
      .error "Gemini returned malformed JSON." ∧
    (V2.callGemini w env userText bookingLink).logs =
      ["Invalid JSON from Gemini: " ++ raw] := by
  unfold V2.callGemini V2.mustEnv
  rw [mustEnvMsg_ok _ _ hjim, mustEnvMsg_ok _ _ hsp]
  dsimp only
  rw [(geminiRequest_parse_err w jim
    (orDefault env.GEMINI_MODEL "gemini-2.5-flash")
    (replaceAll sp bookingPlaceholder bookingLink) userText
    "Gemini API failed: " "Gemini returned empty response."
    hout hgok hgt hraw hparse).2]
  exact ⟨rfl, rfl⟩

/-- Witness for the amended C8 at a concrete unparseable completion text. -/
theorem C8_amended_witness :
    (V2.callGemini wParseFail envFull (Json.str "hi") "link").result =
      .error "Gemini returned malformed JSON." ∧
    (V2.callGemini wParseFail envFull (Json.str "hi") "link").logs =
      ["Invalid JSON from Gemini: " ++ "oops"] :=
  C8_amended wParseFail envFull (Json.str "hi") "link" rfl rfl rfl rfl rfl
    (by decide) rfl

/-- C1: once a request passes the method and secret gates with usable chat
id and text, any failure of the completion step (thrown fetch, non-success
status, empty text, unparseable JSON, missing completion-step environment
value in variant 2) leaves the response a success 200 `{ok:true}` and no
Telegram send is performed; and a failure of the Telegram step likewise
leaves the response 200 `{ok:true}`. -/
theorem C1_failures_masked (env : Env) (req : Request) (w : World)
    {bt gk sp : String} (update : Json)
    (hm : req.method = "POST")
    (hbt : envTruthy env.TELEGRAM_BOT_TOKEN = some bt)
    (hgk : envTruthy env.GEMINI_API_KEY = some gk)
    (hsp : envTruthy env.AI_SYSTEM_PROMPT = some sp)
    (hsec : secretRejected env req = false)
    (hbody : req.jsonBody = some update)
    (hchat : jsTruthy (chatIdOf update) = true)
    (htext : jsTruthy (textOf update) = true) :
    (∀ e, (V1.callGemini w gk (orDefault env.GEMINI_MODEL "gemini-2.5-flash")
        sp ((textOf update).getD .null)
        (orDefault env.BOOKING_LINK "https://calendly.com/your-link")).result
        = .error e →
      (V1.handler env req w).response = ⟨200, okBody⟩ ∧
      telegramTexts (V1.handler env req w).calls = []) ∧
    (∀ ai, (V1.callGemini w gk
        (orDefault env.GEMINI_MODEL "gemini-2.5-flash")
        sp ((textOf update).getD .null)
        (orDefault env.BOOKING_LINK "https://calendly.com/your-link")).result
        = .ok ai → telegramFails w = true →
      (V1.handler env req w).response = ⟨200, okBody⟩) ∧
    (∀ e, (V2.callGemini w env ((textOf update).getD .null)
        (orDefault env.BOOKING_LINK "https://calendly.com/your-link")).result
        = .error e →
      (V2.handler env req w).response = ⟨200, okBody⟩ ∧
      telegramTexts (V2.handler env req w).calls = []) ∧
    (∀ ai, (V2.callGemini w env ((textOf update).getD .null)
        (orDefault env.BOOKING_LINK "https://calendly.com/your-link")).result
        = .ok ai → telegramFails w = true →
      (V2.handler env req w).response = ⟨200, okBody⟩) := by
  have hcond : (!jsTruthy (chatIdOf update) || !jsTruthy (textOf update))
      = false := by simp [hchat, htext]
  have h1 : V1.handler env req w = catchMask ""
      (V1.processUpdate w V1.fallbackText bt gk sp
        (orDefault env.BOOKING_LINK "https://calendly.com/your-link")
        (orDefault env.GEMINI_MODEL "gemini-2.5-flash") (some update)) := by
    simp only [V1.handler, V1.handlerWith]
    rw [v1_gates V1.fallbackText env req w hm hbt hgk hsp hsec, hbody]
  have h2 : V2.handler env req w = catchMask "Webhook Error: "
      (V2.processUpdate w env V2.fallbackText bt
        (orDefault env.BOOKING_LINK "https://calendly.com/your-link")
        (some update)) := by
    simp only [V2.handler, V2.handlerWith]
    rw [v2_gates V2.fallbackText env req w hm hbt hsec, hbody]
  refine ⟨?_, ?_, ?_, ?_⟩
  · intro e hge
    rw [h1]
    simp only [V1.processUpdate, hcond, Bool.false_eq_true, if_false]
    rw [hge]
    refine ⟨rfl, ?_⟩
    simp only [catchMask]
    simp only [V1.callGemini, geminiRequest_calls, telegramTexts]
    rfl
  · intro ai hge hfail
    rw [h1]
    simp only [V1.processUpdate, hcond, Bool.false_eq_true, if_false]
    rw [hge]
    dsimp only
    have ht := telegramSend_fail w bt ((chatIdOf update).getD .null)
      (replyTextOf ai V1.fallbackText) hfail
    cases hres : (telegramSendMessage w bt ((chatIdOf update).getD .null)
        (replyTextOf ai V1.fallbackText)).result with
    | ok u => rw [hres] at ht; simp [okPart] at ht
    | error e => rfl
  · intro e hge
    rw [h2]
    simp only [V2.processUpdate, hcond, Bool.false_eq_true, if_false]
    rw [hge]
    refine ⟨rfl, ?_⟩
    simp only [catchMask]
    cases henv1 : mustEnvMsg "Missing required environment variable: "
        env.JIM_API_KEY "JIM_API_KEY" with
    | error e1 =>
        simp only [V2.callGemini, V2.mustEnv, henv1]
        rfl
    | ok jim =>
        cases henv2 : mustEnvMsg "Missing required environment variable: "
            env.AI_SYSTEM_PROMPT "AI_SYSTEM_PROMPT" with
        | error e2 =>
            simp only [V2.callGemini, V2.mustEnv, henv1, henv2]
            rfl
        | ok sp2 =>
            simp only [V2.callGemini, V2.mustEnv, henv1, henv2]
            rw [geminiRequest_calls]
            rfl
  · intro ai hge hfail
    rw [h2]
    simp only [V2.processUpdate, hcond, Bool.false_eq_true, if_false]
    rw [hge]
    dsimp only
    have ht := telegramSend_fail w bt ((chatIdOf update).getD .null)
      (replyTextOf ai V2.fallbackText) hfail
    cases hres : (telegramSendMessage w bt ((chatIdOf update).getD .null)
        (replyTextOf ai V2.fallbackText)).result with
    | ok u => rw [hres] at ht; simp [okPart] at ht
    | error e => rfl

/-- Witness for C1: a 500 from Gemini and a 403 from Telegram, each masked. -/
theorem C1_failures_masked_witness :
    ((V1.handler envFull reqOK wGeminiDown).response = ⟨200, okBody⟩ ∧
     telegramTexts (V1.handler envFull reqOK wGeminiDown).calls = []) ∧
    (V1.handler envFull reqOK wTelegramDown).response = ⟨200, okBody⟩ ∧
    ((V2.handler envFull reqOK wGeminiDown).response = ⟨200, okBody⟩ ∧
     telegramTexts (V2.handler envFull reqOK wGeminiDown).calls = []) ∧
    (V2.handler envFull reqOK wTelegramDown).response = ⟨200, okBody⟩ := by
  refine ⟨?_, ?_, ?_, ?_⟩
  · exact (C1_failures_masked envFull reqOK wGeminiDown updateOK rfl rfl rfl
      rfl rfl rfl rfl rfl).1 _ rfl
  · exact (C1_failures_masked envFull reqOK wTelegramDown updateOK rfl rfl rfl
      rfl rfl rfl rfl rfl).2.1 _ rfl rfl
  · exact (C1_failures_masked envFull reqOK wGeminiDown updateOK rfl rfl rfl
      rfl rfl rfl rfl rfl).2.2.1 _ rfl
  · exact (C1_failures_masked envFull reqOK wTelegramDown updateOK rfl rfl rfl
      rfl rfl rfl rfl rfl).2.2.2 _ rfl rfl

theorem replyTextOf_not_str (j : Json) (fb : String)
    (h : ∀ rs, ¬ j.getField "reply_text" = some (Json.str rs)) :
    replyTextOf j fb = fb := by
  unfold replyTextOf
  cases hf : j.getField "reply_text" with
  | none => rfl
  | some v =>
      cases v with
      | str s => exact absurd hf (h s)
      | null => rfl
      | bool b => rfl
      | num n => rfl
      | arr es => rfl
      | obj fs => rfl

theorem v1_sent_text (env : Env) (req : Request) (w : World)
    {bt gk sp : String} (update : Json) {data : Json} {raw : String}
    {j : Json} {gstatus : Nat} {gbody : String}
    (hm : req.method = "POST")
    (hbt : envTruthy env.TELEGRAM_BOT_TOKEN = some bt)
    (hgk : envTruthy env.GEMINI_API_KEY = some gk)
    (hsp : envTruthy env.AI_SYSTEM_PROMPT = some sp)
    (hsec : secretRejected env req = false)
    (hbody : req.jsonBody = some update)
    (hchat : jsTruthy (chatIdOf update) = true)
    (htext : jsTruthy (textOf update) = true)
    (hout : w.geminiOutcome = FetchOutcome.response gstatus gbody (some data))
    (hgok : statusOk gstatus = true)
    (hgt : geminiText data = some (Json.str raw))
    (hraw : raw ≠ "")
    (hparse : w.jsonParse raw = .ok j) :
    telegramTexts (V1.handler env req w).calls =
      [replyTextOf j V1.fallbackText] := by
  have hcond : (!jsTruthy (chatIdOf update) || !jsTruthy (textOf update))
      = false := by simp [hchat, htext]
  have h1 : V1.handler env req w = catchMask ""
      (V1.processUpdate w V1.fallbackText bt gk sp
        (orDefault env.BOOKING_LINK "https://calendly.com/your-link")
        (orDefault env.GEMINI_MODEL "gemini-2.5-flash") (some update)) := by
    simp only [V1.handler, V1.handlerWith]
    rw [v1_gates V1.fallbackText env req w hm hbt hgk hsp hsec, hbody]
  rw [h1]
  simp only [V1.processUpdate, hcond, Bool.false_eq_true, if_false]
  have hg : V1.callGemini w gk (orDefault env.GEMINI_MODEL "gemini-2.5-flash")
      sp ((textOf update).getD .null)
      (orDefault env.BOOKING_LINK "https://calendly.com/your-link") =
      ⟨.ok j, [Call.gemini ⟨gk, orDefault env.GEMINI_MODEL "gemini-2.5-flash",
        replaceAll sp bookingPlaceholder
          (orDefault env.BOOKING_LINK "https://calendly.com/your-link"),
        (textOf update).getD .null⟩], []⟩ := by
    unfold V1.callGemini
    exact geminiRequest_ok w gk _ _ _ _ _ _ hout hgok hgt hraw hparse
  rw [hg]
  dsimp only
  cases hres : (telegramSendMessage w bt ((chatIdOf update).getD .null)
      (replyTextOf j V1.fallbackText)).result with
  | error e => simp [catchMask, telegramTexts, telegramSend_calls]
  | ok u => simp [catchMask, telegramTexts, telegramSend_calls]

theorem v2_sent_text (env : Env) (req : Request) (w : World)
    {bt jim sp : String} (update : Json) {data : Json} {raw : String}
    {j : Json} {gstatus : Nat} {gbody : String}
    (hm : req.method = "POST")
    (hbt : envTruthy env.TELEGRAM_BOT_TOKEN = some bt)
    (hjim : envTruthy env.JIM_API_KEY = some jim)
    (hsp : envTruthy env.AI_SYSTEM_PROMPT = some sp)
    (hsec : secretRejected env req = false)
    (hbody : req.jsonBody = some update)
    (hchat : jsTruthy (chatIdOf update) = true)
    (htext : jsTruthy (textOf update) = true)
    (hout : w.geminiOutcome = FetchOutcome.response gstatus gbody (some data))
    (hgok : statusOk gstatus = true)
    (hgt : geminiText data = some (Json.str raw))
    (hraw : raw ≠ "")
    (hparse : w.jsonParse raw = .ok j) :
    telegramTexts (V2.handler env req w).calls =
      [replyTextOf j V2.fallbackText] := by
  have hcond : (!jsTruthy (chatIdOf update) || !jsTruthy (textOf update))
      = false := by simp [hchat, htext]
  have h2 : V2.handler env req w = catchMask "Webhook Error: "
      (V2.processUpdate w env V2.fallbackText bt
        (orDefault env.BOOKING_LINK "https://calendly.com/your-link")
        (some update)) := by
    simp only [V2.handler, V2.handlerWith]
    rw [v2_gates V2.fallbackText env req w hm hbt hsec, hbody]
  rw [h2]
  simp only [V2.processUpdate, hcond, Bool.false_eq_true, if_false]
  have hg : V2.callGemini w env ((textOf update).getD .null)
      (orDefault env.BOOKING_LINK "https://calendly.com/your-link") =
      ⟨.ok j, [Call.gemini ⟨jim,
        orDefault env.GEMINI_MODEL "gemini-2.5-flash",
        replaceAll sp bookingPlaceholder
          (orDefault env.BOOKING_LINK "https://calendly.com/your-link"),
        (textOf update).getD .null⟩], []⟩ := by
    unfold V2.callGemini V2.mustEnv
    rw [mustEnvMsg_ok _ _ hjim, mustEnvMsg_ok _ _ hsp]
    dsimp only
    exact geminiRequest_ok w jim _ _ _ _ _ _ hout hgok hgt hraw hparse
  rw [hg]
  dsimp only
  cases hres : (telegramSendMessage w bt ((chatIdOf update).getD .null)
      (replyTextOf j V2.fallbackText)).result with
  | error e => simp [catchMask, telegramTexts, telegramSend_calls]
  | ok u => simp [catchMask, telegramTexts, telegramSend_calls]

/-- C7: when the completion result parses to JSON `j`, the Telegram send of
each variant carries exactly one text: the trimmed `reply_text` when that
field is a string with non-empty trim, and the variant's fallback text
verbatim when the field is missing, not a string, or empty/whitespace-only
after trimming. -/
theorem C7_reply_selection (env : Env) (req : Request) (w : World)
    {bt gk jim sp : String} (update : Json) {data : Json} {raw : String}
    (j : Json) {gstatus : Nat} {gbody : String}
    (hm : req.method = "POST")
    (hbt : envTruthy env.TELEGRAM_BOT_TOKEN = some bt)
    (hgk : envTruthy env.GEMINI_API_KEY = some gk)
    (hjim : envTruthy env.JIM_API_KEY = some jim)
    (hsp : envTruthy env.AI_SYSTEM_PROMPT = some sp)
    (hsec : secretRejected env req = false)
    (hbody : req.jsonBody = some update)
    (hchat : jsTruthy (chatIdOf update) = true)
    (htext : jsTruthy (textOf update) = true)
    (hout : w.geminiOutcome = FetchOutcome.response gstatus gbody (some data))
    (hgok : statusOk gstatus = true)
    (hgt : geminiText data = some (Json.str raw))
    (hraw : raw ≠ "")
    (hparse : w.jsonParse raw = .ok j) :
    (∀ rs, j.getField "reply_text" = some (Json.str rs) →
      telegramTexts (V1.handler env req w).calls =
        [if jsTrim rs ≠ "" then jsTrim rs else V1.fallbackText] ∧
      telegramTexts (V2.handler env req w).calls =
        [if jsTrim rs ≠ "" then jsTrim rs else V2.fallbackText]) ∧
    ((∀ rs, ¬ j.getField "reply_text" = some (Json.str rs)) →
      telegramTexts (V1.handler env req w).calls = [V1.fallbackText] ∧
      telegramTexts (V2.handler env req w).calls = [V2.fallbackText]) := by
  have hv1 := v1_sent_text env req w update hm hbt hgk hsp hsec hbody hchat
    htext hout hgok hgt hraw hparse
  have hv2 := v2_sent_text env req w update hm hbt hjim hsp hsec hbody hchat
    htext hout hgok hgt hraw hparse
  constructor
  · intro rs hf
    rw [hv1, hv2]
    constructor <;> simp [replyTextOf, hf]
  · intro hnf
    rw [hv1, hv2, replyTextOf_not_str _ _ hnf, replyTextOf_not_str _ _ hnf]
    exact ⟨rfl, rfl⟩

/-- Witness for C7 at the spec's own example `{"reply_text":"  Hello there  "}`
(both variants send the trimmed "Hello there") and at a whitespace-only
`reply_text` of a single ideographic space U+3000 (both variants send their
fallback text). -/
theorem C7_reply_selection_witness :
    (telegramTexts (V1.handler envFull reqOK wHello).calls = ["Hello there"] ∧
     telegramTexts (V2.handler envFull reqOK wHello).calls = ["Hello there"]) ∧
    (telegramTexts (V1.handler envFull reqOK wIdeo).calls =
       [V1.fallbackText] ∧
     telegramTexts (V2.handler envFull reqOK wIdeo).calls =
       [V2.fallbackText]) :=
  ⟨(C7_reply_selection envFull reqOK wHello updateOK
      (Json.obj [("reply_text", Json.str "  Hello there  ")])
      rfl rfl rfl rfl rfl rfl rfl rfl rfl
      (rfl : wHello.geminiOutcome =
        FetchOutcome.response 200 "" (some (geminiData "raw")))
      rfl
      (rfl : geminiText (geminiData "raw") = some (Json.str "raw"))
      (by decide) rfl).1
    "  Hello there  " rfl,
   (C7_reply_selection envFull reqOK wIdeo updateOK
      (Json.obj [("reply_text", Json.str "\u3000")])
      rfl rfl rfl rfl rfl rfl rfl rfl rfl
      (rfl : wIdeo.geminiOutcome =
        FetchOutcome.response 200 "" (some (geminiData "raw")))
      rfl
      (rfl : geminiText (geminiData "raw") = some (Json.str "raw"))
      (by decide) rfl).1
    "\u3000" rfl⟩

theorem getSubstitution_lit (matched before after : List Char) :
    ∀ t : List Char, (∀ c ∈ t, c ≠ dollarC) →
    getSubstitution matched before after t = t
  | [], _ => rfl
  | [c], _ => rfl
  | c :: d :: rest, h => by
      have hc : c ≠ dollarC := h c (by simp)
      show (if c = dollarC then _ else
        c :: getSubstitution matched before after (d :: rest)) = _
      rw [if_neg hc]
      exact congrArg (c :: ·) (getSubstitution_lit matched before after
        (d :: rest) (fun x hx => h x (List.mem_cons_of_mem _ hx)))

theorem replGo_pos (pat rep : List Char) (f : Nat) (pre : List Char)
    (c : Char) (cs : List Char)
    (h : (pat ≠ [] && matchesAt pat (c :: cs)) = true) :
    replGo pat rep (f + 1) pre (c :: cs) =
      getSubstitution pat pre (List.drop (pat.length - 1) cs) rep ++
        replGo pat rep f (pre ++ pat) (List.drop (pat.length - 1) cs) := by
  simp only [replGo]
  rw [if_pos h]

theorem replGo_neg (pat rep : List Char) (f : Nat) (pre : List Char)
    (c : Char) (cs : List Char)
    (h : ¬ (pat ≠ [] && matchesAt pat (c :: cs)) = true) :
    replGo pat rep (f + 1) pre (c :: cs) =
      c :: replGo pat rep f (pre ++ [c]) cs := by
  simp only [replGo]
  rw [if_neg h]

theorem replGo_pre_irrel {pat rep : List Char}
    (hrep : ∀ x ∈ rep, x ≠ dollarC) :
    ∀ f : Nat, ∀ pre₁ pre₂ s : List Char,
    replGo pat rep f pre₁ s = replGo pat rep f pre₂ s := by
  intro f
  induction f with
  | zero => intro pre₁ pre₂ s; cases s <;> rfl
  | succ f ih =>
    intro pre₁ pre₂ s
    cases s with
    | nil => rfl
    | cons c cs =>
      by_cases hc : (pat ≠ [] && matchesAt pat (c :: cs)) = true
      · rw [replGo_pos pat rep f pre₁ c cs hc,
          replGo_pos pat rep f pre₂ c cs hc,
          getSubstitution_lit pat pre₁ (List.drop (pat.length - 1) cs)
            rep hrep,
          getSubstitution_lit pat pre₂ (List.drop (pat.length - 1) cs)
            rep hrep]
        exact congrArg (rep ++ ·) (ih _ _ _)
      · rw [replGo_neg pat rep f pre₁ c cs hc,
          replGo_neg pat rep f pre₂ c cs hc]
        exact congrArg (c :: ·) (ih _ _ _)

theorem replGo_congr (pat rep : List Char) :
    ∀ f₁ f₂ : Nat, ∀ pre s : List Char, s.length ≤ f₁ → s.length ≤ f₂ →
    replGo pat rep f₁ pre s = replGo pat rep f₂ pre s := by
  intro f₁
  induction f₁ with
  | zero =>
    intro f₂ pre s h1 h2
    have hs : s = [] := List.eq_nil_of_length_eq_zero (Nat.le_zero.mp h1)
    subst hs
    cases f₂ <;> rfl
  | succ f ih =>
    intro f₂ pre s h1 h2
    cases s with
    | nil => cases f₂ <;> rfl
    | cons c cs =>
      cases f₂ with
      | zero => simp at h2
      | succ f₂' =>
        have hcs1 : cs.length ≤ f := by
          simp only [List.length_cons] at h1; omega
        have hcs2 : cs.length ≤ f₂' := by
          simp only [List.length_cons] at h2; omega
        by_cases hc : (pat ≠ [] && matchesAt pat (c :: cs)) = true
        · rw [replGo_pos pat rep f pre c cs hc,
            replGo_pos pat rep f₂' pre c cs hc]
          have hd : (List.drop (pat.length - 1) cs).length ≤ cs.length := by
            simp [List.length_drop]
          exact congrArg (getSubstitution pat pre
              (List.drop (pat.length - 1) cs) rep ++ ·)
            (ih f₂' _ _ (le_trans hd hcs1) (le_trans hd hcs2))
        · rw [replGo_neg pat rep f pre c cs hc,
            replGo_neg pat rep f₂' pre c cs hc]
          exact congrArg (c :: ·) (ih f₂' _ cs hcs1 hcs2)

theorem replaceAllL_cons_skip {pat : List Char} {p0 : Char} {pt : List Char}
    (rep : List Char) (hpat : pat = p0 :: pt)
    (hrep : ∀ x ∈ rep, x ≠ dollarC) {c : Char} (hc : c ≠ p0)
    (s : List Char) :
    replaceAllL pat rep (c :: s) = c :: replaceAllL pat rep s := by
  have hm : ¬ (pat ≠ [] && matchesAt pat (c :: s)) = true := by
    subst hpat
    have hb : (p0 == c) = false :=
      beq_eq_false_iff_ne.mpr (fun he => hc he.symm)
    simp [matchesAt, hb]
  show replGo pat rep (c :: s).length [] (c :: s) = _
  rw [List.length_cons, replGo_neg pat rep s.length [] c s hm]
  exact congrArg (c :: ·) (replGo_pre_irrel hrep s.length ([] ++ [c]) [] s)

theorem replaceAllL_append_skip {pat : List Char} {p0 : Char}
    {pt : List Char} (rep : List Char) (hpat : pat = p0 :: pt)
    (hrep : ∀ x ∈ rep, x ≠ dollarC)
    (s0 : List Char) (h0 : ∀ c ∈ s0, c ≠ p0) (t : List Char) :
    replaceAllL pat rep (s0 ++ t) = s0 ++ replaceAllL pat rep t := by
  induction s0 with
  | nil => simp
  | cons c cs ih =>
    have hc : c ≠ p0 := h0 c (by simp)
    simp only [List.cons_append]
    rw [replaceAllL_cons_skip rep hpat hrep hc (cs ++ t),
      ih (fun x hx => h0 x (List.mem_cons_of_mem _ hx))]

theorem matchesAt_self_append (pat t : List Char) :
    matchesAt pat (pat ++ t) = true := by
  induction pat with
  | nil => rfl
  | cons p ps ih => simp [matchesAt, ih]

theorem replaceAllL_head_match {pat : List Char} (rep : List Char)
    (hpat : pat ≠ []) (hrep : ∀ x ∈ rep, x ≠ dollarC) (t : List Char) :
    replaceAllL pat rep (pat ++ t) = rep ++ replaceAllL pat rep t := by
  cases pat with
  | nil => exact absurd rfl hpat
  | cons p0 pt =>
    have hm : matchesAt (p0 :: pt) (p0 :: (pt ++ t)) = true := by
      have h2 := matchesAt_self_append (p0 :: pt) t
      rwa [List.cons_append] at h2
    have hc : ((p0 :: pt : List Char) ≠ [] &&
        matchesAt (p0 :: pt) (p0 :: (pt ++ t))) = true := by simp [hm]
    have hstart : replaceAllL (p0 :: pt) rep ((p0 :: pt) ++ t) =
        replGo (p0 :: pt) rep ((pt ++ t).length + 1) [] (p0 :: (pt ++ t))
        := by
      simp [replaceAllL, List.cons_append]
    rw [hstart,
      replGo_pos (p0 :: pt) rep (pt ++ t).length [] p0 (pt ++ t) hc]
    have hdrop : List.drop ((p0 :: pt).length - 1) (pt ++ t) = t := by
      simp only [List.length_cons, Nat.add_sub_cancel]
      exact List.drop_left pt t
    rw [hdrop]
    rw [getSubstitution_lit (p0 :: pt) [] t rep hrep]
    refine congrArg (rep ++ ·) ?_
    rw [replGo_pre_irrel hrep (pt ++ t).length ([] ++ (p0 :: pt)) [] t]
    exact replGo_congr (p0 :: pt) rep (pt ++ t).length t.length [] t
      (by simp) (le_refl _)

theorem replaceAllL_clean {pat : List Char} {p0 : Char} {pt : List Char}
    (rep : List Char) (hpat : pat = p0 :: pt)
    (hrep : ∀ x ∈ rep, x ≠ dollarC) (s : List Char)
    (h : ∀ c ∈ s, c ≠ p0) : replaceAllL pat rep s = s := by
  have h2 := replaceAllL_append_skip rep hpat hrep s h []
  simpa [replaceAllL, replGo] using h2

theorem replaceAllL_interleave {p0 : Char} {pt : List Char}
    (rep : List Char) (hrep : ∀ x ∈ rep, x ≠ dollarC) :
    ∀ segs : List (List Char), (∀ s ∈ segs, ∀ c ∈ s, c ≠ p0) →
    replaceAllL (p0 :: pt) rep (interleaveL (p0 :: pt) segs) =
      interleaveL rep segs := by
  intro segs
  induction segs with
  | nil => intro h; rfl
  | cons s rest ih =>
    intro h
    cases rest with
    | nil => exact replaceAllL_clean rep rfl hrep s (h s (by simp))
    | cons s' rest' =>
      simp only [interleaveL]
      rw [List.append_assoc]
      rw [replaceAllL_append_skip rep rfl hrep s (h s (by simp))]
      rw [replaceAllL_head_match rep (by simp) hrep]
      rw [ih (fun x hx => h x (List.mem_cons_of_mem _ hx))]
      simp [List.append_assoc]

theorem containsPat_eq_false {p0 : Char} {pt : List Char} (r : List Char)
    (h : ∀ c ∈ r, c ≠ p0) : containsPat (p0 :: pt) r = false := by
  induction r with
  | nil => rfl
  | cons c cs ih =>
    have hc : c ≠ p0 := h c (by simp)
    have hb : (p0 == c) = false :=
      beq_eq_false_iff_ne.mpr (fun he => hc he.symm)
    simp only [containsPat, matchesAt, hb, Bool.false_and, Bool.false_or]
    exact ih (fun x hx => h x (List.mem_cons_of_mem _ hx))

theorem interleaveL_mem {p0 : Char} (rep : List Char)
    (hrep : ∀ c ∈ rep, c ≠ p0) :
    ∀ segs : List (List Char), (∀ s ∈ segs, ∀ c ∈ s, c ≠ p0) →
    ∀ c ∈ interleaveL rep segs, c ≠ p0 := by
  intro segs
  induction segs with
  | nil => intro _ c hc; simp [interleaveL] at hc
  | cons s rest ih =>
    intro h c hc
    cases rest with
    | nil => exact h s (by simp) c (by simpa [interleaveL] using hc)
    | cons s' rest' =>
      simp only [interleaveL, List.append_assoc, List.mem_append] at hc
      rcases hc with hc | hc | hc
      · exact h s (by simp) c hc
      · exact hrep c hc
      · exact ih (fun x hx => h x (List.mem_cons_of_mem _ hx)) c hc

/-- C6 counterexample: the claim quantifies over every template and booking
link value; with template `{{BOOKING_LINK}}` and the (legal, truthy) booking
link value `{{BOOKING_LINK}}`, the resolved prompt actually sent in the
Gemini call is `{{BOOKING_LINK}}` itself, which still contains the raw
placeholder — contradicting "contains no occurrence of the raw
placeholder". -/
theorem C6_counterexample :
    (V1.callGemini wHello "gem-key" "gemini-2.5-flash" bookingPlaceholder
        (Json.str "hi") bookingPlaceholder).calls =
      [Call.gemini ⟨"gem-key", "gemini-2.5-flash", bookingPlaceholder,
        Json.str "hi"⟩] ∧
    strContains bookingPlaceholder bookingPlaceholder = true :=
  ⟨rfl, by decide⟩

/-- C6 (amended): the resolved prompt is the template with every occurrence
of the placeholder substituted left-to-right by the booking link under JS
replaceAll/GetSubstitution semantics; and whenever the booking link
contains no opening brace and no dollar character (so GetSubstitution
treats it literally) and the template is literal brace-free segments
interleaved with placeholder occurrences (so substitution cannot leave or
recreate a placeholder), the resolved prompt sent in the Gemini call is
exactly the segments interleaved with the link and contains no occurrence
of the raw placeholder. -/
theorem C6_amended (w : World) (apiKey model : String) (userText : Json)
    (link : String) (segs : List String)
    (hlink : ∀ c ∈ link.toList, c ≠ obrace)
    (hdol : ∀ c ∈ link.toList, c ≠ dollarC)
    (hsegs : ∀ s ∈ segs, ∀ c ∈ s.toList, c ≠ obrace) :
    (V1.callGemini w apiKey model (interleaveStr bookingPlaceholder segs)
        userText link).calls =
      [Call.gemini ⟨apiKey, model, interleaveStr link segs, userText⟩] ∧
    strContains (interleaveStr link segs) bookingPlaceholder = false := by
  have hsplit : bookingPlaceholder.toList =
      obrace :: "\x7bBOOKING_LINK\x7d\x7d".toList := by decide
  have hsegs' : ∀ s ∈ segs.map String.toList, ∀ c ∈ s, c ≠ obrace := by
    intro s hs
    rcases List.mem_map.mp hs with ⟨x, hx, rfl⟩
    exact hsegs x hx
  have hmain : replaceAllL bookingPlaceholder.toList link.toList
      (interleaveL bookingPlaceholder.toList (segs.map String.toList)) =
      interleaveL link.toList (segs.map String.toList) := by
    rw [hsplit]
    exact replaceAllL_interleave link.toList hdol (segs.map String.toList)
      hsegs'
  have hprompt : replaceAll (interleaveStr bookingPlaceholder segs)
      bookingPlaceholder link = interleaveStr link segs := by
    unfold replaceAll interleaveStr
    exact congrArg String.mk hmain
  constructor
  · unfold V1.callGemini
    rw [geminiRequest_calls, hprompt]
  · show containsPat bookingPlaceholder.toList
      (interleaveL link.toList (segs.map String.toList)) = false
    rw [hsplit]
    exact containsPat_eq_false _
      (interleaveL_mem link.toList hlink (segs.map String.toList) hsegs')

/-- Witness for the amended C6 at a concrete two-segment template and a
brace-free booking link. -/
theorem C6_amended_witness :
    (V1.callGemini wHello "gem-key" "gemini-2.5-flash"
        (interleaveStr bookingPlaceholder ["Book: ", " now"])
        (Json.str "hi") "https://cal.example").calls =
      [Call.gemini ⟨"gem-key", "gemini-2.5-flash",
        interleaveStr "https://cal.example" ["Book: ", " now"],
        Json.str "hi"⟩] ∧
    strContains (interleaveStr "https://cal.example" ["Book: ", " now"])
      bookingPlaceholder = false :=
  C6_amended wHello "gem-key" "gemini-2.5-flash" (Json.str "hi")
    "https://cal.example" ["Book: ", " now"] (by decide) (by decide)
    (by decide)

theorem geminiRequest_rel (w : World) (a m pr : String) (u : Json)
    (f1 n1 f2 n2 : String) :
    (geminiRequest w a m pr u f1 n1 false).calls =
      (geminiRequest w a m pr u f2 n2 true).calls ∧
    okPart (geminiRequest w a m pr u f1 n1 false).result =
      okPart (geminiRequest w a m pr u f2 n2 true).result := by
  unfold geminiRequest
  cases w.geminiOutcome with
  | throws msg => exact ⟨rfl, rfl⟩
  | response st bt bj =>
    cases hst : statusOk st with
    | false => simp [hst, okPart]
    | true =>
      cases bj with
      | none => simp [hst, okPart]
      | some data =>
        cases ht : jsTruthy (geminiText data) with
        | false => simp [hst, ht, okPart]
        | true =>
          cases hp : w.jsonParse (jsToString ((geminiText data).getD .null))
              with
          | ok j => simp [hst, ht, hp, okPart]
          | error pe => simp [hst, ht, hp, okPart]

theorem callGemini_rel (w : World) (env : Env) {k p : String} (u : Json)
    (bl : String)
    (hj : envTruthy env.JIM_API_KEY = some k)
    (hp : envTruthy env.AI_SYSTEM_PROMPT = some p) :
    (V1.callGemini w k (orDefault env.GEMINI_MODEL "gemini-2.5-flash") p u
        bl).calls = (V2.callGemini w env u bl).calls ∧
    okPart (V1.callGemini w k (orDefault env.GEMINI_MODEL "gemini-2.5-flash")
        p u bl).result = okPart (V2.callGemini w env u bl).result := by
  unfold V1.callGemini V2.callGemini V2.mustEnv
  rw [mustEnvMsg_ok _ _ hj, mustEnvMsg_ok _ _ hp]
  dsimp only
  exact geminiRequest_rel w k (orDefault env.GEMINI_MODEL "gemini-2.5-flash")
    (replaceAll p bookingPlaceholder bl) u
    "Gemini failed: " "Gemini returned no text."
    "Gemini API failed: " "Gemini returned empty response."

theorem processUpdate_rel (w : World) (env : Env) (fb bt bl : String)
    {k p : String}
    (hj : envTruthy env.JIM_API_KEY = some k)
    (hp : envTruthy env.AI_SYSTEM_PROMPT = some p)
    (body : Option Json) :
    (V1.processUpdate w fb bt k p bl
        (orDefault env.GEMINI_MODEL "gemini-2.5-flash") body).calls =
      (V2.processUpdate w env fb bt bl body).calls ∧
    okPart (V1.processUpdate w fb bt k p bl
        (orDefault env.GEMINI_MODEL "gemini-2.5-flash") body).result =
      okPart (V2.processUpdate w env fb bt bl body).result := by
  cases body with
  | none => exact ⟨rfl, rfl⟩
  | some update =>
    unfold V1.processUpdate V2.processUpdate
    cases hgate : (!jsTruthy (chatIdOf update) || !jsTruthy (textOf update))
        with
    | true => simp [hgate, okPart]
    | false =>
      simp only [hgate, Bool.false_eq_true, if_false]
      obtain ⟨hcalls, hres⟩ := callGemini_rel w env
        ((textOf update).getD .null) bl hj hp
      cases h1 : (V1.callGemini w k
          (orDefault env.GEMINI_MODEL "gemini-2.5-flash") p
          ((textOf update).getD .null) bl).result with
      | error e1 =>
        cases h2 : (V2.callGemini w env ((textOf update).getD .null)
            bl).result with
        | error e2 => simp [hcalls, okPart]
        | ok j2 => rw [h1, h2] at hres; simp [okPart] at hres
      | ok j =>
        cases h2 : (V2.callGemini w env ((textOf update).getD .null)
            bl).result with
        | error e2 => rw [h1, h2] at hres; simp [okPart] at hres
        | ok j2 =>
          rw [h1, h2] at hres
          simp only [okPart, Option.some.injEq] at hres
          subst hres
          dsimp only
          cases hts : (telegramSendMessage w bt ((chatIdOf update).getD .null)
              (replyTextOf j fb)).result with
          | error e => simp [hcalls, okPart]
          | ok u2 => simp [hcalls, okPart]

theorem tryBody_rel (fb : String) (env : Env) (req : Request) (w : World)
    {k p : String}
    (hk : envTruthy env.GEMINI_API_KEY = some k)
    (hj : envTruthy env.JIM_API_KEY = some k)
    (hp : envTruthy env.AI_SYSTEM_PROMPT = some p) :
    (V1.tryBody fb env req w).calls = (V2.tryBody fb env req w).calls ∧
    okPart (V1.tryBody fb env req w).result =
      okPart (V2.tryBody fb env req w).result := by
  by_cases hm : req.method = "POST"
  · cases hbt : envTruthy env.TELEGRAM_BOT_TOKEN with
    | none =>
      simp [V1.tryBody, V2.tryBody, V1.mustEnv, V2.mustEnv, mustEnvMsg,
        hbt, hm, okPart]
    | some bt =>
      cases hsec : secretRejected env req with
      | true =>
        simp [V1.tryBody, V2.tryBody, V1.mustEnv, V2.mustEnv, mustEnvMsg,
          hbt, hk, hp, hm, hsec, okPart]
      | false =>
        rw [v1_gates fb env req w hm hbt hk hp hsec,
          v2_gates fb env req w hm hbt hsec]
        exact processUpdate_rel w env fb bt
          (orDefault env.BOOKING_LINK "https://calendly.com/your-link")
          hj hp req.jsonBody
  · simp [V1.tryBody, V2.tryBody, hm, okPart]

/-- C9 counterexample: the two variants do not always produce the same
response and outbound calls. With `AI_SYSTEM_PROMPT` absent and a payload
without usable text, variant 1 fails at its up-front environment read and
masks to `{ok:true}`, while variant 2 answers `{ok:true, ignored:true}`.
With `GEMINI_API_KEY` set but `JIM_API_KEY` absent and a valid payload,
variant 1 performs a Gemini call while variant 2 performs no outbound call
at all. -/
theorem C9_counterexample :
    (V1.handler envNoPrompt reqEmptyObj wHello).response ≠
      (V2.handler envNoPrompt reqEmptyObj wHello).response ∧
    (V1.handler envNoJim reqOK wHello).calls.length = 2 ∧
    (V2.handler envNoJim reqOK wHello).calls.length = 0 := by
  refine ⟨?_, rfl, rfl⟩
  show (⟨200, okBody⟩ : Response) ≠ ⟨200, okIgnoredBody⟩
  decide

/-- C9 (amended): whenever the completion credential is present under both
variants' environment names with the same value and the instruction
template is present, the two handler variants — instantiated with a common
fallback constant, the one point where the source texts differ — produce
the same response and the same sequence of outbound calls for every
request and world; outside those provisos the variants can diverge (see
the counterexample). -/
theorem C9_amended (env : Env) (req : Request) (w : World) {k p : String}
    (hk : envTruthy env.GEMINI_API_KEY = some k)
    (hj : envTruthy env.JIM_API_KEY = some k)
    (hp : envTruthy env.AI_SYSTEM_PROMPT = some p) (fb : String) :
    (V1.handlerWith fb env req w).response =
      (V2.handlerWith fb env req w).response ∧
    (V1.handlerWith fb env req w).calls =
      (V2.handlerWith fb env req w).calls := by
  obtain ⟨hcalls, hres⟩ := tryBody_rel fb env req w hk hj hp
  unfold V1.handlerWith V2.handlerWith catchMask
  cases h1 : (V1.tryBody fb env req w).result with
  | ok r1 =>
    cases h2 : (V2.tryBody fb env req w).result with
    | ok r2 =>
      rw [h1, h2] at hres
      simp only [okPart, Option.some.injEq] at hres
      subst hres
      exact ⟨rfl, hcalls⟩
    | error e2 => rw [h1, h2] at hres; simp [okPart] at hres
  | error e1 =>
    cases h2 : (V2.tryBody fb env req w).result with
    | ok r2 => rw [h1, h2] at hres; simp [okPart] at hres
    | error e2 => exact ⟨rfl, hcalls⟩

/-- Witness for the amended C9 at a concrete full environment, valid
request and successful world, with a common fallback constant. -/
theorem C9_amended_witness :
    (V1.handlerWith "fallback" envFull reqOK wHello).response =
      (V2.handlerWith "fallback" envFull reqOK wHello).response ∧
    (V1.handlerWith "fallback" envFull reqOK wHello).calls =
      (V2.handlerWith "fallback" envFull reqOK wHello).calls :=
  C9_amended envFull reqOK wHello rfl rfl rfl "fallback"
